import Mathlib

/-!
Verification of the `drp_climate_master` climate-control core
(`climate_core.py`, `helpers.py`, `const.py` of r-renato/home-climate-control).

The Python code is shallowly embedded: Python `float` values are modelled as
exact rationals (`ℚ`), Home Assistant `State` objects as their `.state`
strings, sensor maps as association lists, raised exceptions as
`Except PyErr`, and actuator service calls as elements of an emitted command
list.  Wall-clock time-of-day is modelled in minutes after midnight (the
scheduling windows of the source compare at whole-minute boundaries).
-/

set_option maxRecDepth 4000

namespace DrpClimate

/-- Python exceptions that the embedded code can raise. -/
inductive PyErr where
  | valueError
  | zeroDivision
  | typeError
  | keyError
  | attributeError
deriving DecidableEq

/-- Decidable equality of `Except` results, for concrete evaluation. -/
instance {ε α : Type} [DecidableEq ε] [DecidableEq α] : DecidableEq (Except ε α) :=
  fun a b =>
    match a, b with
    | .ok x, .ok y =>
      if h : x = y then .isTrue (congrArg Except.ok h)
      else .isFalse (fun hc => h (Except.ok.inj hc))
    | .error x, .error y =>
      if h : x = y then .isTrue (congrArg Except.error h)
      else .isFalse (fun hc => h (Except.error.inj hc))
    | .ok _, .error _ => .isFalse (fun hc => Except.noConfusion hc)
    | .error _, .ok _ => .isFalse (fun hc => Except.noConfusion hc)

/-! ## Python number parsing and rounding -/

/-- Digit test on a list of characters. -/
def allDigits (cs : List Char) : Bool := cs.all Char.isDigit

/-- Value of a digit string (most significant first). -/
def natOfDigits (cs : List Char) : Nat :=
  cs.foldl (fun a c => a * 10 + (c.toNat - 48)) 0

/-- Unsigned part of Python `float(...)` on a plain decimal literal:
`"12"`, `"12.5"`, `"12."`, `".5"`.  Exponent and infinity forms are not
modelled; no state string in this development uses them. -/
def pyFloatCore (cs : List Char) : Option ℚ :=
  let ip := cs.takeWhile Char.isDigit
  let rest := cs.dropWhile Char.isDigit
  match rest with
  | [] => if ip.isEmpty then none else some (natOfDigits ip : ℚ)
  | c :: fp =>
    if c = ('.') && allDigits fp && (!ip.isEmpty || !fp.isEmpty) then
      some ((natOfDigits ip : ℚ) + (natOfDigits fp : ℚ) / ((10 : ℚ) ^ fp.length))
    else
      none

/-- Python `float(s)`: `none` models a raised `ValueError`. -/
def pyFloat? (s : String) : Option ℚ :=
  match s.toList with
  | ('-') :: cs => (pyFloatCore cs).map Neg.neg
  | ('+') :: cs => pyFloatCore cs
  | cs => pyFloatCore cs

/-- Parsed value of a state string already known to be numeric. -/
def pyFloatD (s : String) : ℚ := (pyFloat? s).getD 0

/-- Python `int(s)`: `none` models a raised `ValueError`. -/
def pyInt? (s : String) : Option Int :=
  match s.toList with
  | ('-') :: cs =>
    if !cs.isEmpty && allDigits cs then some (-(natOfDigits cs : Int)) else none
  | ('+') :: cs =>
    if !cs.isEmpty && allDigits cs then some (natOfDigits cs : Int) else none
  | cs =>
    if !cs.isEmpty && allDigits cs then some (natOfDigits cs : Int) else none

/-- `is_number` from `helpers.py`: `float(string)` succeeds. -/
def is_number (s : String) : Bool := (pyFloat? s).isSome

/-- Python `round(x)` on an exact value: round half to even. -/
def pyRoundQ (x : ℚ) : Int :=
  if x - (⌊x⌋ : ℚ) < 1/2 then ⌊x⌋
  else if 1/2 < x - (⌊x⌋ : ℚ) then ⌊x⌋ + 1
  else if ⌊x⌋ % 2 = 0 then ⌊x⌋ else ⌊x⌋ + 1

/-- Python `round(x, 1)` on an exact value. -/
def pyRound10 (x : ℚ) : ℚ := ((pyRoundQ (x * 10) : ℚ)) / 10

/-! ## Sensor maps and commands -/

/-- Entity identifiers. -/
abbrev EntityId := String

/-- A snapshot of `State` objects keyed by entity id: each entry is the
`.state` string of a stored, non-`None` state object. -/
abbrev SMap := List (EntityId × String)

/-- `map.get(k)` / `hass.states.get(k)`: the `.state` string when present. -/
def smGet (m : SMap) (k : EntityId) : Option String :=
  (m.find? (fun p => p.1 == k)).map (fun p => p.2)

/-- `k in map`. -/
def smMem (m : SMap) (k : EntityId) : Bool := (smGet m k).isSome

/-- State string under a key known to be present. -/
def smGetD (m : SMap) (k : EntityId) : String := (smGet m k).getD ("")

/-- Actuator commands sent to the external bus.  `setNumber` carries an
optional payload because the source can forward a `None` setpoint. -/
inductive Cmd where
  | turn (entity : EntityId) (action : String)
  | setNumber (entity : EntityId) (value : Option ℚ)
  | selectOption (entity : EntityId) (value : String)
deriving DecidableEq

/-- `TURN_ON` from `const.py`. -/
def TURN_ON : String := "turn_on"

/-- `TURN_OFF` from `const.py`. -/
def TURN_OFF : String := "turn_off"

/-! ## Dates (`datetime.date`) -/

/-- A `datetime.date` value (fields as constructed; validity is enforced by
`mkDate`, which models the constructor). -/
structure PyDate where
  year : Nat
  month : Nat
  day : Nat
deriving DecidableEq

/-- `is_leap_year` from `helpers.py`. -/
def is_leap_year (y : Nat) : Bool :=
  y % 4 == 0 && (y % 100 != 0 || y % 400 == 0)

/-- Day count of a month, matching `datetime`. -/
def daysInMonth (y m : Nat) : Nat :=
  if m = 2 then (if is_leap_year y then 29 else 28)
  else if m = 4 ∨ m = 6 ∨ m = 9 ∨ m = 11 then 30
  else 31

/-- Validity check of the `datetime.date` constructor (`MINYEAR = 1`). -/
def validDate (y m d : Nat) : Bool :=
  1 ≤ y && 1 ≤ m && m ≤ 12 && 1 ≤ d && d ≤ daysInMonth y m

/-- `datetime.date(y, m, d)`: raises `ValueError` on an invalid date. -/
def mkDate (y m d : Nat) : Except PyErr PyDate :=
  if validDate y m d then .ok ⟨y, m, d⟩ else .error .valueError

/-- `d.replace(year=y)`. -/
def dateReplaceYear (dt : PyDate) (y : Nat) : Except PyErr PyDate :=
  mkDate y dt.month dt.day

/-- `d.replace(day=day)`. -/
def dateReplaceDay (dt : PyDate) (d : Nat) : Except PyErr PyDate :=
  mkDate dt.year dt.month d

/-- `datetime.date` strict comparison (lexicographic). -/
def dateLt (a b : PyDate) : Bool :=
  a.year < b.year ||
    (a.year == b.year &&
      (a.month < b.month || (a.month == b.month && a.day < b.day)))

/-- `datetime.date` non-strict comparison. -/
def dateLe (a b : PyDate) : Bool := dateLt a b || a == b

/-- `date.toordinal()` (proleptic Gregorian day number). -/
def dateOrd (dt : PyDate) : Int :=
  let y := dt.year - 1
  let beforeYear : Int := (365 * y + y / 4 + y / 400 : Nat) - (y / 100 : Nat)
  let beforeMonth : Nat :=
    (List.range (dt.month - 1)).foldl (fun acc i => acc + daysInMonth dt.year (i + 1)) 0
  beforeYear + beforeMonth + dt.day

/-! ## `const.py`: comfort zones and season intervals -/

/-- One `CONFORT_ZONES` record. -/
structure Zone where
  temp_min : ℚ
  temp_max : ℚ
  hum_min : ℚ
  hum_max : ℚ
  delta_temp : ℚ
  delta_hum : ℚ
  dew_point : ℚ
deriving DecidableEq

/-- `CONFORT_ZONES` in dict insertion order (summer, autumn, winter, spring). -/
def CONFORT_ZONES : List (String × Zone) :=
  [(("summer"), ⟨24, 27, 40, 55, 0.7, 1.6, 19⟩),
   (("autumn"), ⟨18, 23.7, 50, 70, 0.6, 1.5, 18⟩),
   (("winter"), ⟨17.5, 21.5, 40, 60, 0.5, 1.0, 18⟩),
   (("spring"), ⟨19, 24, 45, 65, 0.8, 1.4, 18⟩)]

/-- `CONFORT_ZONES[label]` guarded by `label in CONFORT_ZONES`. -/
def lookupZone (l : String) : Option Zone :=
  (CONFORT_ZONES.find? (fun p => p.1 == l)).map (fun p => p.2)

/-- `SEASONS_BY_DATE` in dict insertion order, with its literal dates
(including the winter end `2024-02-29` and the inverted autumn interval). -/
def SEASONS_BY_DATE : List (String × PyDate × PyDate) :=
  [(("winter"), ⟨2023, 12, 1⟩, ⟨2024, 2, 29⟩),
   (("spring"), ⟨2024, 3, 1⟩, ⟨2024, 5, 31⟩),
   (("summer"), ⟨2024, 6, 1⟩, ⟨2024, 8, 31⟩),
   (("autumn"), ⟨2024, 9, 1⟩, ⟨2023, 11, 30⟩)]

/-- The season dictionary built by `get_season_by_date` /
`get_season_from_weather`.  `overridden` and `weather_anomaly` are `none`
while the corresponding dict key is absent. -/
structure SeasonDict where
  label : String
  days : Int
  passed : Int
  remaining : Int
  overridden : Option String
  weather_anomaly : Option Bool
deriving DecidableEq

/-! ## Season estimation (`climate_core.py`) -/

/-- The loop body of `get_season_by_date`, folded over `SEASONS_BY_DATE`:
year-normalise the stored interval, apply the Feb-29 adjustment, roll an
inverted end into the following year, and test membership. -/
def seasonFold (yr : Nat) (today : PyDate) :
    List (String × PyDate × PyDate) → Except PyErr (Option SeasonDict)
  | [] => .ok none
  | (label, s0, e0) :: rest => do
    let start ← dateReplaceYear s0 yr
    let e1 ← dateReplaceYear e0 yr
    let e2 ← if is_leap_year (yr + 1) && (e1.month == 2)
             then dateReplaceDay e1 29 else pure e1
    let e3 ← if dateLt e2 start then dateReplaceYear e2 (yr + 1) else pure e2
    if dateLe start today && dateLe today e3 then
      .ok (some { label := label
                , days := dateOrd e3 - dateOrd start + 1
                , passed := dateOrd today - dateOrd start
                , remaining := dateOrd e3 - dateOrd today
                , overridden := none
                , weather_anomaly := none })
    else
      seasonFold yr today rest

/-- `get_season_by_date(data)` (`climate_core.py`, lines 442-482). -/
def get_season_by_date (data : PyDate) : Except PyErr (Option SeasonDict) :=
  seasonFold data.year data SEASONS_BY_DATE

/-- The no-argument call `get_season_by_date()`.  In Python the default
`data=date.today()` is evaluated exactly once, when the `class DevicesHub`
body is executed at module import; every later no-argument call reuses that
frozen date.  `callToday` is the wall-clock date at call time and is
(faithfully) ignored. -/
def get_season_by_date_noarg (moduleImportToday : PyDate) (_callToday : PyDate) :
    Except PyErr (Option SeasonDict) :=
  get_season_by_date moduleImportToday

/-! ## Weather-driven season override -/

/-- `get_weather_temps` (lines 360-374): each configured weather entity is
modelled by `none` (entity missing or a `minTemp`/`maxTemp` attribute
missing, hence skipped) or `some (min, max)`.  Returns `None` when nothing
was collected. -/
def get_weather_temps (weather : List (Option (ℚ × ℚ))) : Option (List (ℚ × ℚ)) :=
  let result := weather.filterMap id
  if result.length > 0 then some result else none

/-- Score of one season for the forecast list (lines 569-587): per indexed
day, `weight i * (1 / (1 + |min - mid| + |max - mid|))` where `mid` is the
midpoint of the delta-inflated comfort band and `weight i = 1 - 0.1 * i`. -/
def seasonScore (temps : List (ℚ × ℚ)) (z : Zone) : ℚ :=
  (temps.enum.foldl
    (fun acc p =>
      let weight : ℚ := 1 - (p.1 : ℚ) * 0.1
      let cmin := z.temp_min - z.delta_temp
      let cmax := z.temp_max + z.delta_temp
      let cavg := (cmin + cmax) / 2
      acc + weight * (1 / (1 + |p.2.1 - cavg| + |p.2.2 - cavg|)))
    0)

/-- `max(season_scores, key=season_scores.get)`: first key with the maximal
score, in dict insertion order (strictly greater replaces). -/
def argmaxScore (xs : List (String × ℚ)) : String :=
  match xs with
  | [] => ""
  | p :: rest =>
    (rest.foldl (fun best q => if q.2 > best.2 then q else best) p).1

/-- `get_season_from_weather` (lines 557-598).  With no forecast the
calendar dict is returned unchanged (in particular without the
`overridden` / `weather_anomaly` keys); subscript-assignment on a `None`
calendar result would raise `TypeError`. -/
def get_season_from_weather (weather : List (Option (ℚ × ℚ)))
    (importToday : PyDate) : Except PyErr (Option SeasonDict) := do
  let temperatures := get_weather_temps weather
  let current_season ← get_season_by_date_noarg importToday importToday
  match temperatures with
  | none => pure current_season
  | some ts =>
    match current_season with
    | none => .error .typeError
    | some c =>
      let scores := CONFORT_ZONES.map (fun p => (p.1, seasonScore ts p.2))
      let selected := argmaxScore scores
      pure (some { c with overridden := some selected
                        , weather_anomaly := some (selected != c.label) })

/-- `get_confort_zone` (lines 601-608): resolve the overridden label in
`CONFORT_ZONES`, `None` when the season dict is falsy or the key is not in
the table. -/
def get_confort_zone (weather : List (Option (ℚ × ℚ)))
    (importToday : PyDate) : Except PyErr (Option Zone) := do
  let season ← get_season_from_weather weather importToday
  match season with
  | some d =>
    match d.overridden with
    | some l => pure (lookupZone l)
    | none => pure none
  | none => pure none

/-! ## Psychrometrics -/

/-- Modelled from the spec: `psychrolib.GetTDewPointFromRelHum` is a
third-party call whose source is not part of this repository.  Per the
psychrolib API it raises `ValueError` when the relative humidity is outside
`[0, 1]`, and otherwise returns the Magnus-type dew point; the in-range
value is abstracted by the parameter `dewfn`. -/
def GetTDewPointFromRelHum (dewfn : ℚ → ℚ → ℚ) (tempC relHum : ℚ) :
    Except PyErr ℚ :=
  if 0 ≤ relHum ∧ relHum ≤ 1 then .ok (dewfn tempC relHum)
  else .error .valueError

/-- `calculate_dew_point` (lines 382-392): `dp` is initialised to `0`, the
psychrolib call is attempted with `humidity / 100`, a `ValueError` is caught
and logged, and `dp` is returned — so the out-of-range case returns the
sentinel `0`, not an absent value. -/
def calculate_dew_point (dewfn : ℚ → ℚ → ℚ) (temperature humidity : ℚ) : ℚ :=
  match GetTDewPointFromRelHum dewfn temperature (humidity / 100) with
  | .ok v => v
  | .error _ => 0

/-- `calculate_heat_index` (lines 376-380): simplified Steadman apparent
temperature, computed in Fahrenheit and converted back. -/
def calculate_heat_index (temperature humidity : ℚ) : ℚ :=
  let t := temperature * 9 / 5 + 32
  let hi := 0.5 * (t + 61.0 + ((t - 68.0) * 1.2) + (humidity * 0.094))
  (hi - 32) * 5 / 9

/-! ## Helpers (`helpers.py`) -/

/-- `weighted_average`: `ValueError` on mismatched lengths and
`ZeroDivisionError` on an all-zero weight sum. -/
def weighted_average (valori pesi : List ℚ) : Except PyErr ℚ :=
  if valori.length ≠ pesi.length then .error .valueError
  else
    let somma_prodotti := ((valori.zip pesi).map (fun p => p.1 * p.2)).sum
    let somma_pesi := pesi.sum
    if somma_pesi = 0 then .error .zeroDivision
    else .ok (somma_prodotti / somma_pesi)

/-! ## Area configuration and the Ambient Aggregator -/

/-- One entry of the `areas` configuration list.  `indoor` / `radiant` are
`none` when the key is absent; `mq` and the valve id are optional per the
schema and raise `KeyError` when subscripted while absent. -/
structure AreaConfig where
  area : String
  indoor : Option Bool
  radiant : Option Bool
  mq : Option ℚ
  temperature : EntityId
  humidity : EntityId
  thermal_collector_valve_switch : Option EntityId

/-- `"indoor" in area and "radiant" in area and area['indoor'] and
area['radiant']`. -/
def qualifies (a : AreaConfig) : Bool :=
  a.indoor == some true && a.radiant == some true

/-- `area['mq']`: raises `KeyError` when the key is absent. -/
def areaMq (a : AreaConfig) : Except PyErr ℚ :=
  match a.mq with
  | some v => .ok v
  | none => .error .keyError

/-- `area['thermal_collector_valve_switch']`. -/
def areaValve (a : AreaConfig) : Except PyErr EntityId :=
  match a.thermal_collector_valve_switch with
  | some v => .ok v
  | none => .error .keyError

/-- `float(state)`: raises `ValueError` on a non-numeric state string. -/
def parseFloat (s : String) : Except PyErr ℚ :=
  match pyFloat? s with
  | some q => .ok q
  | none => .error .valueError

/-- The accumulation loop of `async_ambient_temp_hum` (lines 618-631):
values, weights and the qualifying / missing counters, in area order. -/
def ambLoop (sensor_map : SMap) :
    List AreaConfig → Except PyErr (List ℚ × List ℚ × List ℚ × Nat × Nat)
  | [] => .ok ([], [], [], 0, 0)
  | a :: rest =>
    if qualifies a then
      if smMem sensor_map a.temperature && smMem sensor_map a.humidity then do
        let t ← parseFloat (smGetD sensor_map a.temperature)
        let h ← parseFloat (smGetD sensor_map a.humidity)
        let w ← areaMq a
        let (ts, hs, ws, c, m) ← ambLoop sensor_map rest
        .ok (t :: ts, h :: hs, w :: ws, c + 1, m)
      else do
        let (ts, hs, ws, c, m) ← ambLoop sensor_map rest
        .ok (ts, hs, ws, c + 1, m + 1)
    else
      ambLoop sensor_map rest

/-- The aggregate record returned by `async_ambient_temp_hum`. -/
structure AmbientRec where
  temp : ℚ
  hum : ℚ
  t_avg_dew_point : ℚ
  t_avg_h_index : ℚ
deriving DecidableEq

/-- `async_ambient_temp_hum` (lines 610-643): proceed when
`round(area_count / 3, 0) >= area_missing`, then return the rounded
weighted means with the derived dew point and heat index; otherwise
return `None`. -/
def async_ambient_temp_hum (dewfn : ℚ → ℚ → ℚ) (areas : List AreaConfig)
    (sensor_map : SMap) : Except PyErr (Option AmbientRec) := do
  let (temps, hums, weights, area_count, area_missing) ← ambLoop sensor_map areas
  if (pyRoundQ ((area_count : ℚ) / 3)) ≥ (area_missing : Int) then do
    let t_avg := pyRound10 (← weighted_average temps weights)
    let h_avg := pyRound10 (← weighted_average hums weights)
    let t_dew_point := pyRound10 (calculate_dew_point dewfn t_avg h_avg)
    let t_h_index := pyRound10 (calculate_heat_index t_avg h_avg)
    pure (some ⟨t_avg, h_avg, t_dew_point, t_h_index⟩)
  else
    pure none

/-! ## Hub configuration -/

/-- The slice of the validated configuration that `DevicesHub.__init__`
caches in instance fields, together with the abstract psychrolib dew-point
function and the module-import date (see `get_season_by_date_noarg`). -/
structure HubConfig where
  areas : List AreaConfig
  weather : List (Option (ℚ × ℚ))
  importToday : PyDate
  dewfn : ℚ → ℚ → ℚ
  power_supply_direct_id : EntityId
  power_supply_adjustable_id : EntityId
  power_supply_mixing_valve_id : EntityId
  radiant_fm_power_id : EntityId
  radiant_device_power_id : EntityId
  radiant_actuator_id : EntityId
  radiant_device_heating_code : ℚ
  radiant_boiler_temp_system_supply : EntityId
  radiant_boiler_temp_system_return : EntityId
  vmc_power_entity_id : EntityId
  vmc_season_actuator_id : EntityId
  vmc_season_winter_code : String
  vmc_spare_setpoint_id : EntityId
  vmc_vent_recirculation_id : EntityId
  vmc_force_heating_id : EntityId
  vmc_t_setpoint_entity_id : EntityId
  vmc_h_setpoint_entity_id : EntityId
  vmc_t_ambient : EntityId
  vmc_t_water : EntityId
  vmc_high_water_temp : EntityId
  vmc_home_windows_state : EntityId

/-- Mutable instance fields of `DevicesHub` that a control pass can update:
the two confort setpoints (initially `None`) and the latched
water-temperature alarm flag. -/
structure HubVars where
  sp_on : Option ℚ
  sp_off : Option ℚ
  water_alarm : Bool
deriving DecidableEq

/-! ## Thermal-Collector Distributor -/

/-- `room_temp > confort_setpoint_power_off` where the setpoint field may
still be `None` (Python raises `TypeError` comparing `float` with `None`). -/
def qGtOpt (x : ℚ) (o : Option ℚ) : Except PyErr Bool :=
  match o with
  | some v => .ok (x > v)
  | none => .error .typeError

/-- `room_temp <= confort_setpoint_power_on`, same `None` behaviour. -/
def qLeOpt (x : ℚ) (o : Option ℚ) : Except PyErr Bool :=
  match o with
  | some v => .ok (x ≤ v)
  | none => .error .typeError

/-- `float(...) != value` against a possibly-`None` value: in Python `!=`
between a float and `None` is `True` and does not raise. -/
def qNeOpt (x : ℚ) (o : Option ℚ) : Bool :=
  match o with
  | some v => x ≠ v
  | none => true

/-- The hysteresis decision for one zone (lines 768-783): above the
power-off threshold turn an open valve off; at or below the power-on
threshold, or with no `on` observation in the dwell window, turn a closed
valve on; otherwise hold.  Comparisons against a still-`None` setpoint
raise `TypeError` exactly where Python would. -/
def collectorZoneCmds (valve : EntityId) (room_temp : ℚ)
    (sp_on sp_off : Option ℚ) (is_on : Bool) (last_on : Nat) :
    Except PyErr (List Cmd) := do
  let hot ← qGtOpt room_temp sp_off
  if hot then
    .ok (if is_on then [Cmd.turn valve TURN_OFF] else [])
  else do
    let cold ← qLeOpt room_temp sp_on
    if cold || (last_on == 0) then
      .ok (if !is_on then [Cmd.turn valve TURN_ON] else [])
    else
      .ok []

/-- The per-zone pass of `_async_radiant_thermal_collector_mode_auto`
(lines 742-788), producing the commands and the `total_mq` / `opened_mq`
accumulators.  `db valve` models
`enquiry_entity_in_state_last_minutes(valve, 'on', '120')`. -/
def collectorLoop (smap hstates : SMap) (db : EntityId → Nat)
    (sp_on sp_off : Option ℚ) :
    List AreaConfig → Except PyErr (List Cmd × ℚ × ℚ)
  | [] => .ok ([], 0, 0)
  | a :: rest =>
    if qualifies a then do
      let mq ← areaMq a
      let valve ← areaValve a
      let aobj := smGet hstates valve
      let last_on := db valve
      if smMem smap a.temperature && smMem smap a.humidity && aobj.isSome then do
        let room_temp ← parseFloat (smGetD smap a.temperature)
        let _room_hums ← parseFloat (smGetD smap a.humidity)
        let is_on := aobj == some ("on")
        let openedHere : ℚ := if is_on then mq else 0
        let cmdsHere ← collectorZoneCmds valve room_temp sp_on sp_off is_on last_on
        let (cmds, total, opened) ← collectorLoop smap hstates db sp_on sp_off rest
        .ok (cmdsHere ++ cmds, mq + total, openedHere + opened)
      else do
        let (cmds, total, opened) ← collectorLoop smap hstates db sp_on sp_off rest
        .ok (cmds, mq + total, opened)
    else
      collectorLoop smap hstates db sp_on sp_off rest

/-- Line 790: `total_mq` is padded by the fixed constant `4` whenever some
zone area is not currently open. -/
def collectorPad (total opened : ℚ) : ℚ :=
  if total ≠ opened then total + 4 else total

/-- The returned percentage (line 793):
`max(50, round((1 - ((total_mq - opened_mq) / total_mq)) * 100, 0))`
computed on the padded total. -/
def adjust_valve_percent (total opened : ℚ) : ℚ :=
  max 50 ((pyRoundQ ((1 - ((collectorPad total opened - opened)
    / collectorPad total opened)) * 100) : ℚ))

/-- `_async_radiant_thermal_collector_mode_auto` (lines 729-794).  The
explicit `zeroDivision` branch models Python's `ZeroDivisionError` when the
padded total is `0` (rational division in Lean would silently return `0`). -/
def radiant_thermal_collector (hub : HubConfig) (hubSmap hstates : SMap)
    (db : EntityId → Nat) (sp_on sp_off : Option ℚ) :
    Except PyErr (List Cmd × ℚ) := do
  let (cmds, total_mq, opened_mq) ←
    collectorLoop hubSmap hstates db sp_on sp_off hub.areas
  if collectorPad total_mq opened_mq = 0 then .error .zeroDivision
  else .ok (cmds, adjust_valve_percent total_mq opened_mq)

/-- Sum of `mq` over the qualifying areas (the loop's `total_mq`). -/
def collectorTotalMq (areas : List AreaConfig) : ℚ :=
  ((areas.filter qualifies).map (fun a => a.mq.getD 0)).sum

/-- Whether a qualifying area contributes data to the collector pass:
both sensors in the map and a valve state object available. -/
def collectorHasData (smap hstates : SMap) (a : AreaConfig) : Bool :=
  smMem smap a.temperature && smMem smap a.humidity &&
    (match a.thermal_collector_valve_switch with
     | some v => smMem hstates v
     | none => false)

/-- Whether the area's valve reads `on` (the loop's `is_actuator_on`). -/
def collectorValveOn (hstates : SMap) (a : AreaConfig) : Bool :=
  match a.thermal_collector_valve_switch with
  | some v => smGet hstates v == some ("on")
  | none => false

/-- Sum of `mq` over qualifying areas whose valve currently reads `on`
(the loop's `opened_mq`). -/
def collectorOpenedMq (areas : List AreaConfig) (smap hstates : SMap) : ℚ :=
  ((areas.filter
      (fun a => qualifies a && collectorHasData smap hstates a
        && collectorValveOn hstates a)).map (fun a => a.mq.getD 0)).sum

/-! ## VMC winter state machine -/

/-- The support-interlock guard (lines 1112-1116): adjustable supply path
`on` and the mixing valve numeric at `<= 60` percent. -/
def vmcInterlockActive (hub : HubConfig) (m : SMap) : Bool :=
  smGet m hub.power_supply_adjustable_id == some ("on") &&
    (match smGet m hub.power_supply_mixing_valve_id with
     | some s => is_number s && pyFloatD s ≤ 60
     | none => false)

/-- Condition of lines 1147-1151: ambient numeric, direct path present and
`off`, water-temperature numeric. -/
def vmcDirectOffCond (hub : HubConfig) (m : SMap) : Bool :=
  (match smGet m hub.vmc_t_ambient with
   | some s => is_number s
   | none => false) &&
  smGet m hub.power_supply_direct_id == some ("off") &&
  (match smGet m hub.vmc_t_water with
   | some s => is_number s
   | none => false)

/-- Condition of lines 1163-1166: direct path `on` while the
high-water-temperature alarm sensor is `on`. -/
def vmcDirectAlarmCond (hub : HubConfig) (m : SMap) : Bool :=
  smGet m hub.power_supply_direct_id == some ("on") &&
  smGet m hub.vmc_high_water_temp == some ("on")

/-- Lines 1131-1134 (also 1209-1212): force the treatment selector to
`Off` when it reads anything else. -/
def vmcTreatOffCmds (hub : HubConfig) (m : SMap) : List Cmd :=
  match smGet m hub.vmc_season_actuator_id with
  | some s =>
    if s ≠ ("Off") then [Cmd.selectOption hub.vmc_season_actuator_id ("Off")]
    else []
  | none => []

/-- Lines 1139-1142: turn forced heating on when it reads `off`. -/
def vmcForceHeatOnCmds (hub : HubConfig) (m : SMap) : List Cmd :=
  if smGet m hub.vmc_force_heating_id == some ("off")
  then [Cmd.turn hub.vmc_force_heating_id TURN_ON] else []

/-- Lines 1155-1156: the latch clears when it was set and the water
temperature has returned at or below the ambient temperature. -/
def vmcAlarmAfterClear (hub : HubConfig) (m : SMap) (alarm0 : Bool) : Bool :=
  if alarm0 && decide (pyFloatD (smGetD m hub.vmc_t_water) ≤
      pyFloatD (smGetD m hub.vmc_t_ambient))
  then false else alarm0

/-- Lines 1147-1169: the direct-supply-path management.  With the direct
path `off` and both temperatures numeric, possibly clear the latch, then
enable the direct path while the latch is clear and the
high-water-temperature alarm sensor reads `off`; with the direct path `on`
while that alarm reads `on`, set the latch and disable the direct path. -/
def vmcDirectStep (hub : HubConfig) (m : SMap) (alarm0 : Bool) :
    List Cmd × Bool :=
  if vmcDirectOffCond hub m then
    (if !(vmcAlarmAfterClear hub m alarm0) &&
        (smGet m hub.vmc_high_water_temp == some ("off"))
     then [Cmd.turn hub.power_supply_direct_id TURN_ON] else [],
     vmcAlarmAfterClear hub m alarm0)
  else if vmcDirectAlarmCond hub m then
    ([Cmd.turn hub.power_supply_direct_id TURN_OFF], true)
  else ([], alarm0)

/-- Body of the interlock with the device already powered (lines 1128-1181):
treatment forced `Off`, forced heating on, and the latched-alarm management
of the direct supply path.  Returns the commands and the updated latch. -/
def vmcInterlockBody (hub : HubConfig) (m : SMap) (alarm0 : Bool) :
    List Cmd × Bool :=
  (vmcTreatOffCmds hub m ++ vmcForceHeatOnCmds hub m
    ++ (vmcDirectStep hub m alarm0).1,
   (vmcDirectStep hub m alarm0).2)

/-- Lines 1237-1240: select the configured winter treatment code when the
selector reads anything else. -/
def vmcTreatWinterCmds (hub : HubConfig) (m : SMap) : List Cmd :=
  match smGet m hub.vmc_season_actuator_id with
  | some s =>
    if s ≠ hub.vmc_season_winter_code then
      [Cmd.selectOption hub.vmc_season_actuator_id hub.vmc_season_winter_code]
    else []
  | none => []

/-- Lines 1214-1217 (and 1242-1245): drive the spare setpoint to `target`
when its state (parsed with `int(...)`, which raises on a non-numeric
state) differs. -/
def vmcSpareCmds (hub : HubConfig) (m : SMap) (target : Int) :
    Except PyErr (List Cmd) :=
  match smGet m hub.vmc_spare_setpoint_id with
  | some s => do
    let i ← (match pyInt? s with
             | some i => Except.ok i
             | none => Except.error PyErr.valueError)
    pure (if i ≠ target then
            [Cmd.setNumber hub.vmc_spare_setpoint_id (some (target : ℚ))]
          else [])
  | none => pure []

/-- Lines 1219-1222: recirculation vent on when it reads `off`. -/
def vmcRecircOnCmds (hub : HubConfig) (m : SMap) : List Cmd :=
  if smGet m hub.vmc_vent_recirculation_id == some ("off")
  then [Cmd.turn hub.vmc_vent_recirculation_id TURN_ON] else []

/-- Lines 1247-1250 (and 1254-1258): recirculation vent off when it reads
`on`. -/
def vmcRecircOffCmds (hub : HubConfig) (m : SMap) : List Cmd :=
  if smGet m hub.vmc_vent_recirculation_id == some ("on")
  then [Cmd.turn hub.vmc_vent_recirculation_id TURN_OFF] else []

/-- The time-window schedule of the winter path (lines 1200-1263), reached
when the interlock guard is false.  `now` is minutes after midnight. -/
def vmcWinterSchedule (hub : HubConfig) (m : SMap) (isOn : Bool) (now : Nat) :
    Except PyErr (List Cmd) :=
  if 120 ≤ now && now < 540 then
    if !isOn then .ok [Cmd.turn hub.vmc_power_entity_id TURN_ON]
    else do
      let c2 ← vmcSpareCmds hub m 1
      pure (vmcTreatOffCmds hub m ++ c2 ++ vmcRecircOnCmds hub m)
  else if 720 ≤ now && now < 900 then
    if !isOn then .ok [Cmd.turn hub.vmc_power_entity_id TURN_ON]
    else do
      let c2 ← vmcSpareCmds hub m 5
      pure (vmcTreatWinterCmds hub m ++ c2 ++ vmcRecircOffCmds hub m)
  else
    if isOn then
      .ok (vmcRecircOffCmds hub m ++ [Cmd.turn hub.vmc_power_entity_id TURN_OFF])
    else .ok []

/-- Lines 1183-1198: with the interlock guard inactive and the device on,
retract forced heating and the direct supply path before scheduling. -/
def vmcRetractCmds (hub : HubConfig) (m : SMap) : List Cmd :=
  (if smGet m hub.vmc_force_heating_id == some ("on")
   then [Cmd.turn hub.vmc_force_heating_id TURN_OFF] else []) ++
  (if smGet m hub.power_supply_direct_id == some ("on")
   then [Cmd.turn hub.power_supply_direct_id TURN_OFF] else [])

/-- `_async_vmc_mode_auto_season_winter` (lines 1087-1263).  Returns the
issued commands and the updated `_vmc_controller_water_alarm` latch.  With
the interlock guard active the function returns immediately after the
interlock; otherwise an `on` device first retracts forced heating and the
direct path, then falls into the time-window schedule. -/
def vmc_mode_auto_season_winter (hub : HubConfig) (m : SMap) (isOn : Bool)
    (alarm0 : Bool) (now : Nat) : Except PyErr (List Cmd × Bool) :=
  if vmcInterlockActive hub m then
    if !isOn then .ok ([Cmd.turn hub.vmc_power_entity_id TURN_ON], alarm0)
    else .ok (vmcInterlockBody hub m alarm0)
  else do
    let cs ← vmcWinterSchedule hub m isOn now
    pure ((if isOn then vmcRetractCmds hub m else []) ++ cs, alarm0)

/-! ## Radiant winter controller -/

/-- The power-down valve sweep (lines 846-853): each qualifying area's
valve that reads `on` is commanded off, after which the log statement
evaluates the non-existent attribute `self.actuator_entity_id` and raises
`AttributeError` — so the sweep aborts at the first open valve.  (The
command dispatched before the raise is not retained by this model; the
whole branch is unreachable in a live cycle, see the season theorems.) -/
def radiantValvesOffPowerDown (hstates : SMap) :
    List AreaConfig → Except PyErr (List Cmd)
  | [] => .ok []
  | a :: rest =>
    if qualifies a then do
      let v ← areaValve a
      if smGet hstates v == some ("on") then .error .attributeError
      else radiantValvesOffPowerDown hstates rest
    else radiantValvesOffPowerDown hstates rest

/-- The cooldown valve sweep (lines 916-921): turn off every qualifying
area's valve that reads `on` (no logging bug on this path). -/
def radiantValvesOffCooldown (hstates : SMap) :
    List AreaConfig → Except PyErr (List Cmd)
  | [] => .ok []
  | a :: rest =>
    if qualifies a then do
      let v ← areaValve a
      let here := if smGet hstates v == some ("on")
                  then [Cmd.turn v TURN_OFF] else []
      let more ← radiantValvesOffCooldown hstates rest
      pure (here ++ more)
    else radiantValvesOffCooldown hstates rest

/-- Condition of lines 858-865 for opening the adjustable supply path:
boiler supply and return present and numeric, supply above 27, return above
25.5, and the adjustable path not already on. -/
def radiantBoilerReady (hub : HubConfig) (m : SMap) : Bool :=
  (smGet m hub.radiant_boiler_temp_system_supply).isSome &&
  (smGet m hub.radiant_boiler_temp_system_return).isSome &&
  (smGet m hub.power_supply_adjustable_id).isSome &&
  is_number (smGetD m hub.radiant_boiler_temp_system_supply) &&
  is_number (smGetD m hub.radiant_boiler_temp_system_return) &&
  pyFloatD (smGetD m hub.radiant_boiler_temp_system_supply) > 27 &&
  pyFloatD (smGetD m hub.radiant_boiler_temp_system_return) > 25.5 &&
  !(smGet m hub.power_supply_adjustable_id == some ("on"))

/-- `_async_radiant_mode_auto_season_winter` (lines 796-921). -/
def radiant_mode_auto_season_winter (hub : HubConfig) (hubSmap hstates : SMap)
    (db : EntityId → Nat) (isOn : Bool) (sp_on sp_off : Option ℚ)
    (heat_index : ℚ) (now : Nat) : Except PyErr (List Cmd) :=
  if isOn then do
    let c1 := match smGet hubSmap hub.radiant_actuator_id with
      | some s =>
        if is_number s && pyFloatD s ≠ hub.radiant_device_heating_code then
          [Cmd.setNumber hub.radiant_actuator_id
            (some hub.radiant_device_heating_code)]
        else []
      | none => []
    let hot ← qGtOpt heat_index sp_off
    let c2 ←
      if hot then do
        let a := if smGet hubSmap hub.power_supply_adjustable_id == some ("on")
                 then [Cmd.turn hub.power_supply_adjustable_id TURN_OFF] else []
        let b := if smGet hubSmap hub.radiant_device_power_id == some ("on")
                 then [Cmd.turn hub.radiant_device_power_id TURN_OFF] else []
        let c ← radiantValvesOffPowerDown hstates hub.areas
        pure (a ++ b ++ c)
      else do
        let a := if radiantBoilerReady hub hubSmap
                 then [Cmd.turn hub.power_supply_adjustable_id TURN_ON] else []
        let (c, pct) ← radiant_thermal_collector hub hubSmap hstates db sp_on sp_off
        let d := match smGet hubSmap hub.power_supply_mixing_valve_id with
          | some s =>
            if is_number s && pyFloatD s ≠ pct then
              [Cmd.setNumber hub.power_supply_mixing_valve_id (some pct)]
            else []
          | none => []
        pure (a ++ c ++ d)
    let c3 := if now > 1320 then [Cmd.turn hub.radiant_device_power_id TURN_OFF]
              else []
    pure (c1 ++ c2 ++ c3)
  else
    if smGet hubSmap hub.power_supply_adjustable_id == some ("on") &&
        (smGet hubSmap hub.radiant_boiler_temp_system_return).isSome &&
        is_number (smGetD hubSmap hub.radiant_boiler_temp_system_return) &&
        pyFloatD (smGetD hubSmap hub.radiant_boiler_temp_system_return) < 25.5
    then do
      let more ← radiantValvesOffCooldown hstates hub.areas
      pure ([Cmd.turn hub.power_supply_adjustable_id TURN_OFF,
             Cmd.turn hub.radiant_device_power_id TURN_OFF] ++ more)
    else .ok []

/-- `_async_radiant_mode_auto` (lines 689-727): gated on the windows-closed
sensor, fetches the aggregate (an absent aggregate makes the `.get` on
`None` raise `AttributeError`), and dispatches the winter branch. -/
def radiant_mode_auto (hub : HubConfig) (vars : HubVars)
    (smapParam hubSmap hstates : SMap) (db : EntityId → Nat)
    (season_name : Option String) (now : Nat) : Except PyErr (List Cmd) :=
  if smGet hubSmap hub.vmc_home_windows_state == some ("on") then do
    let amb ← async_ambient_temp_hum hub.dewfn hub.areas smapParam
    let hi ← match amb with
      | none => Except.error PyErr.attributeError
      | some r => Except.ok r.t_avg_h_index
    let isOn := smGet hubSmap hub.radiant_fm_power_id == some ("on") &&
                smGet hubSmap hub.radiant_device_power_id == some ("on")
    if season_name == some ("winter") then
      radiant_mode_auto_season_winter hub hubSmap hstates db isOn
        vars.sp_on vars.sp_off hi now
    else .ok []
  else .ok []

/-- `_async_vmc_mode_auto` (lines 924-991): gated on the windows-closed
sensor; in winter with the device on, drives the temperature setpoint to
the power-off threshold and the humidity setpoint to `hum_max + delta_hum`
(edge-triggered), then runs the winter state machine.  The
`VMC Power: ON` block at lines 996-1086 is guarded by `and False` and is
omitted as dead code.  Spring, summer and autumn handlers issue no
commands.  Returns the commands and the updated alarm latch. -/
def vmc_mode_auto (hub : HubConfig) (vars : HubVars) (smapParam hubSmap : SMap)
    (season_name : Option String) (confort_zone : Option Zone) (now : Nat) :
    Except PyErr (List Cmd × Bool) :=
  if smGet hubSmap hub.vmc_home_windows_state == some ("on") then do
    let amb ← async_ambient_temp_hum hub.dewfn hub.areas smapParam
    let _ambRec ← match amb with
      | none => Except.error PyErr.attributeError
      | some r => Except.ok r
    let isOn := smGet hubSmap hub.vmc_power_entity_id == some ("on")
    if season_name == some ("winter") then do
      let c1 ←
        if isOn then do
          let z ← (match confort_zone with
                   | some z => Except.ok z
                   | none => Except.error PyErr.typeError)
          let set_point_temp := vars.sp_off
          let a := match smGet hubSmap hub.vmc_t_setpoint_entity_id with
            | some s =>
              if is_number s && qNeOpt (pyFloatD s) set_point_temp then
                [Cmd.setNumber hub.vmc_t_setpoint_entity_id set_point_temp]
              else []
            | none => []
          let hset := z.hum_max + z.delta_hum
          let b := match smGet hubSmap hub.vmc_h_setpoint_entity_id with
            | some s =>
              if is_number s && pyFloatD s ≠ hset then
                [Cmd.setNumber hub.vmc_h_setpoint_entity_id (some hset)]
              else []
            | none => []
          pure (a ++ b)
        else pure []
      let (c2, alarm2) ← vmc_mode_auto_season_winter hub hubSmap isOn
        vars.water_alarm now
      pure (c1 ++ c2, alarm2)
    else pure ([], vars.water_alarm)
  else .ok ([], vars.water_alarm)

/-! ## The full control cycle -/

/-- Outcome of one `async_hvac_control` run: the final mutable hub state
(or the uncaught exception) together with the actuator commands issued
before returning or raising. -/
structure CycleResult where
  outcome : Except PyErr HubVars
  cmds : List Cmd

/-- `async_hvac_control` (lines 645-680).  The comfort zone and the season
are evaluated first (line 649 and 654); in winter the two confort setpoints
are recomputed from the comfort zone, then the VMC and radiant controllers
run.  An exception raised by the season evaluation propagates before any
actuator command is dispatched. -/
def async_hvac_control (hub : HubConfig) (vars0 : HubVars) (hvac_mode : String)
    (smapParam hubSmap hstates : SMap) (db : EntityId → Nat) (now : Nat) :
    CycleResult :=
  match get_confort_zone hub.weather hub.importToday with
  | .error e => ⟨.error e, []⟩
  | .ok confort_zone =>
    match get_season_from_weather hub.weather hub.importToday with
    | .error e => ⟨.error e, []⟩
    | .ok season_info =>
      let season_name : Option String :=
        match season_info with
        | some si =>
          if !(si.weather_anomaly.getD false) then some si.label
          else si.overridden
        | none => some ("")
      if hvac_mode = ("auto") then
        match (if season_name == some ("winter") then
                 match confort_zone with
                 | some z =>
                   Except.ok { vars0 with
                     sp_on := some ((z.temp_max + z.temp_min) / 2
                                      - z.delta_temp * 2)
                   , sp_off := some (z.temp_max + z.delta_temp * 2) }
                 | none => Except.error PyErr.typeError
               else Except.ok vars0) with
        | .error e => ⟨.error e, []⟩
        | .ok vars1 =>
          match vmc_mode_auto hub vars1 smapParam hubSmap season_name
              confort_zone now with
          | .error e => ⟨.error e, []⟩
          | .ok (cmdsV, alarm2) =>
            let vars2 := { vars1 with water_alarm := alarm2 }
            match radiant_mode_auto hub vars2 smapParam hubSmap hstates db
                season_name now with
            | .error e => ⟨.error e, []⟩
            | .ok cmdsR => ⟨.ok vars2, cmdsV ++ cmdsR⟩
      else ⟨.ok vars0, []⟩

/-- The mutable hub state visible to the next cycle: unchanged when the run
raised (the season evaluation raises before any assignment). -/
def varsAfter (r : CycleResult) (fallback : HubVars) : HubVars :=
  match r.outcome with
  | .ok v => v
  | .error _ => fallback

/-! ## Specification-level views of the Ambient Aggregator loop -/

/-- Both sensors of the area present in the snapshot. -/
def ambPresent (sm : SMap) (a : AreaConfig) : Bool :=
  smMem sm a.temperature && smMem sm a.humidity

/-- The loop's `area_count`: number of qualifying areas. -/
def ambQualCount (areas : List AreaConfig) : Nat :=
  (areas.filter qualifies).length

/-- The loop's `area_missing`: qualifying areas lacking sensor data. -/
def ambMissCount (areas : List AreaConfig) (sm : SMap) : Nat :=
  (areas.filter (fun a => qualifies a && !ambPresent sm a)).length

/-- Qualifying areas that contribute data, in list order. -/
def ambPresentAreas (areas : List AreaConfig) (sm : SMap) : List AreaConfig :=
  areas.filter (fun a => qualifies a && ambPresent sm a)

/-- The loop's `temps` list. -/
def ambTempsOf (areas : List AreaConfig) (sm : SMap) : List ℚ :=
  (ambPresentAreas areas sm).map (fun a => pyFloatD (smGetD sm a.temperature))

/-- The loop's `hums` list. -/
def ambHumsOf (areas : List AreaConfig) (sm : SMap) : List ℚ :=
  (ambPresentAreas areas sm).map (fun a => pyFloatD (smGetD sm a.humidity))

/-- The loop's `weights` list (floor areas). -/
def ambWeightsOf (areas : List AreaConfig) (sm : SMap) : List ℚ :=
  (ambPresentAreas areas sm).map (fun a => a.mq.getD 0)

/-- The floor-area-weighted mean `Σ(value·weight) / Σ(weight)`. -/
def weightedMean (vals ws : List ℚ) : ℚ :=
  ((vals.zip ws).map (fun p => p.1 * p.2)).sum / ws.sum

/-- The aggregate record the success path of `async_ambient_temp_hum`
produces: one-decimal-rounded weighted means and the dew point / heat index
derived from the rounded pair. -/
def ambSpecRecord (dewfn : ℚ → ℚ → ℚ) (areas : List AreaConfig) (sm : SMap) :
    AmbientRec :=
  let t := pyRound10 (weightedMean (ambTempsOf areas sm) (ambWeightsOf areas sm))
  let h := pyRound10 (weightedMean (ambHumsOf areas sm) (ambWeightsOf areas sm))
  ⟨t, h, pyRound10 (calculate_dew_point dewfn t h),
    pyRound10 (calculate_heat_index t h)⟩

/-! ## Concrete fixtures used by counterexamples and witnesses -/

/-- A qualifying (indoor, radiant) area record. -/
def mkArea (nm : String) (t h : EntityId) (mq : ℚ) (valve : Option EntityId) :
    AreaConfig :=
  ⟨nm, some true, some true, some mq, t, h, valve⟩

/-- A constant stand-in for the in-range psychrolib dew point. -/
def dewfnConst (v : ℚ) : ℚ → ℚ → ℚ := fun _ _ => v

/-- Three qualifying areas. -/
def areasThree : List AreaConfig :=
  [mkArea ("bed") ("t1") ("h1") 20 (some ("v1")),
   mkArea ("living") ("t2") ("h2") 30 (some ("v2")),
   mkArea ("bath") ("t3") ("h3") 50 (some ("v3"))]

/-- Snapshot in which the first area's temperature entry is present but
holds the non-numeric state `unavailable`. -/
def smapUnavail : SMap :=
  [(("t1"), ("unavailable")), (("h1"), ("50")),
   (("t2"), ("20")), (("h2"), ("55")),
   (("t3"), ("21")), (("h3"), ("60"))]

/-- Snapshot with data for the first two areas and the third missing. -/
def smapTwoPresent : SMap :=
  [(("t1"), ("20")), (("h1"), ("50")), (("t2"), ("22")), (("h2"), ("60"))]

/-- Snapshot with data for the first area only (two areas missing). -/
def smapOnePresent : SMap :=
  [(("t1"), ("20")), (("h1"), ("50"))]

/-- One qualifying area reporting an out-of-range 150 % relative humidity. -/
def areasHumid : List AreaConfig :=
  [mkArea ("studio") ("t9") ("h9") 10 (some ("v9"))]

/-- Snapshot with the out-of-range humidity state. -/
def smapHumid : SMap := [(("t9"), ("20")), (("h9"), ("150"))]

/-- A hub configuration with pairwise distinct entity ids, no weather
entities and no areas; fixture fields are overridden per use. -/
def hubBase : HubConfig where
  areas := []
  weather := []
  importToday := ⟨2024, 1, 10⟩
  dewfn := dewfnConst 0
  power_supply_direct_id := ("sw.direct")
  power_supply_adjustable_id := ("sw.adjustable")
  power_supply_mixing_valve_id := ("num.mixing")
  radiant_fm_power_id := ("sw.fm_power")
  radiant_device_power_id := ("sw.radiant_power")
  radiant_actuator_id := ("num.radiant_mode")
  radiant_device_heating_code := 3
  radiant_boiler_temp_system_supply := ("sens.boiler_supply")
  radiant_boiler_temp_system_return := ("sens.boiler_return")
  vmc_power_entity_id := ("sw.vmc_power")
  vmc_season_actuator_id := ("sel.vmc_season")
  vmc_season_winter_code := ("Winter")
  vmc_spare_setpoint_id := ("num.vmc_spare")
  vmc_vent_recirculation_id := ("sw.vmc_recirc")
  vmc_force_heating_id := ("sw.vmc_force_heat")
  vmc_t_setpoint_entity_id := ("num.vmc_t_setpoint")
  vmc_h_setpoint_entity_id := ("num.vmc_h_setpoint")
  vmc_t_ambient := ("sens.vmc_t_ambient")
  vmc_t_water := ("sens.vmc_t_water")
  vmc_high_water_temp := ("bin.vmc_high_water")
  vmc_home_windows_state := ("bin.windows")

/-- Hub snapshot for the latch witness: interlock guard active, device on,
direct supply path on while the high-water-temperature alarm is on. -/
def smapLatch : SMap :=
  [(("sw.adjustable"), ("on")), (("num.mixing"), ("55")),
   (("sw.direct"), ("on")), (("bin.vmc_high_water"), ("on")),
   (("sel.vmc_season"), ("Off")), (("sw.vmc_force_heat"), ("on")),
   (("sens.vmc_t_ambient"), ("21")), (("sens.vmc_t_water"), ("38"))]

/-- One qualifying area with in-band temperature and a closed valve, for
the distributor witness. -/
def areasValve : List AreaConfig :=
  [mkArea ("hall") ("t7") ("h7") 10 (some ("v7"))]

/-- Sensor snapshot for the distributor witness. -/
def smapValve : SMap := [(("t7"), ("20")), (("h7"), ("50"))]

/-- Valve-state snapshot for the distributor witness. -/
def hstatesValve : SMap := [(("v7"), ("off"))]

/-- Dwell-query results for the distributor witness: one `on` observation
in the trailing window. -/
def dbValve : EntityId → Nat := fun _ => 1

/-! # Theorems -/

/-! ## Calendar-season evaluation -/

theorem leap_mod4 {y : Nat} (h : is_leap_year y = true) : y % 4 = 0 := by
  simp only [is_leap_year, Bool.and_eq_true, beq_iff_eq] at h
  exact h.1

theorem leap_succ_false {y : Nat} (h : y % 4 = 0) :
    is_leap_year (y + 1) = false := by
  have h1 : (y + 1) % 4 = 1 := by omega
  simp [is_leap_year, h1]

theorem mkDate_dec1 {y : Nat} (hy : 1 ≤ y) : mkDate y 12 1 = .ok ⟨y, 12, 1⟩ := by
  simp [mkDate, validDate, daysInMonth, hy]

theorem mkDate_feb29_nonleap {y : Nat} (hl : is_leap_year y = false) :
    mkDate y 2 29 = .error .valueError := by
  simp [mkDate, validDate, daysInMonth, hl]

theorem mkDate_feb29_leap {y : Nat} (hy : 1 ≤ y) (hl : is_leap_year y = true) :
    mkDate y 2 29 = .ok ⟨y, 2, 29⟩ := by
  simp [mkDate, validDate, daysInMonth, hy, hl]

/-- `get_season_by_date` raises `ValueError` for every query date: for a
non-leap query year already while year-normalising the stored winter end
`2024-02-29`, and for a leap query year while rolling that end into the
(necessarily non-leap) following year. -/
theorem season_raises_all (d : PyDate) :
    get_season_by_date d = .error .valueError := by
  show seasonFold d.year d SEASONS_BY_DATE = .error .valueError
  by_cases hy : 1 ≤ d.year
  · by_cases hl : is_leap_year d.year = true
    · have h3 : is_leap_year (d.year + 1) = false := leap_succ_false (leap_mod4 hl)
      simp [SEASONS_BY_DATE, seasonFold, dateReplaceYear, dateReplaceDay,
        mkDate_dec1 hy, mkDate_feb29_leap hy hl, h3, dateLt,
        mkDate_feb29_nonleap h3, Bind.bind, Except.bind, Pure.pure, Except.pure]
    · have hl' : is_leap_year d.year = false := by
        cases h : is_leap_year d.year
        · rfl
        · exact absurd h hl
      simp [SEASONS_BY_DATE, seasonFold, dateReplaceYear,
        mkDate_dec1 hy, mkDate_feb29_nonleap hl', Bind.bind, Except.bind,
        Pure.pure, Except.pure]
  · have h0 : mkDate d.year 12 1 = .error .valueError := by
      have hz : d.year = 0 := by omega
      simp [mkDate, validDate, hz]
    simp [SEASONS_BY_DATE, seasonFold, dateReplaceYear, h0, Bind.bind,
      Except.bind, Pure.pure, Except.pure]

theorem season_from_weather_raises (w : List (Option (ℚ × ℚ))) (d : PyDate) :
    get_season_from_weather w d = .error .valueError := by
  unfold get_season_from_weather get_season_by_date_noarg
  simp [season_raises_all d, Bind.bind, Except.bind]

theorem confort_zone_raises (w : List (Option (ℚ × ℚ))) (d : PyDate) :
    get_confort_zone w d = .error .valueError := by
  unfold get_confort_zone
  simp [season_from_weather_raises w d, Bind.bind, Except.bind]

/-- C2.  The season table would have to partition the year, but
`get_season_by_date` never returns any season record: already at a plainly
mid-summer date of the (leap) test year 2024 the winter-interval
normalisation raises an uncaught `ValueError` (the end `2024-02-29` is
rolled to the non-existent `2025-02-29`), instead of producing the SUMMER
record the claim requires. -/
theorem get_season_by_date_raises_midsummer :
    get_season_by_date ⟨2024, 7, 15⟩ = .error .valueError := by
  decide

/-- C3.  For every query date whose year is not a leap year,
`get_season_by_date` raises an uncaught `ValueError`: `SEASONS_BY_DATE`
stores the winter end `2024-02-29`, and `date.replace(year=...)` to the
non-leap query year fails before the Feb-29 adjustment line runs. -/
theorem get_season_by_date_raises_nonleap (d : PyDate)
    (_h : is_leap_year d.year = false) :
    get_season_by_date d = .error .valueError :=
  season_raises_all d

theorem get_season_by_date_raises_nonleap_witness :
    is_leap_year 2023 = false ∧
      get_season_by_date ⟨2023, 7, 15⟩ = .error .valueError :=
  ⟨by decide, get_season_by_date_raises_nonleap ⟨2023, 7, 15⟩ (by decide)⟩

/-- C6.  With no forecast data (`get_weather_temps` collects nothing),
`get_season_from_weather` does not return a season estimate at all: it
propagates the `ValueError` raised by the calendar lookup, and (being built
from the calendar dict, which never receives an `overridden` key on this
path) could not supply an overridden label even if the lookup returned. -/
theorem season_from_weather_no_forecast (imp : PyDate) :
    get_weather_temps [] = none ∧
      get_season_from_weather [] imp = .error .valueError :=
  ⟨rfl, season_from_weather_raises [] imp⟩

/-- C10.  The no-argument `get_season_by_date()` call classifies the
module-import-time date: the result is the same at every call date and
equals the explicit call on the import date. -/
theorem season_noarg_uses_import_date (imp c1 c2 : PyDate) :
    get_season_by_date_noarg imp c1 = get_season_by_date_noarg imp c2 ∧
      get_season_by_date_noarg imp c1 = get_season_by_date imp :=
  ⟨rfl, rfl⟩

/-! ## The full control cycle -/

theorem cycle_cmds_nil (hub : HubConfig) (vars : HubVars) (mode : String)
    (smapParam hubSmap hstates : SMap) (db : EntityId → Nat) (now : Nat) :
    (async_hvac_control hub vars mode smapParam hubSmap hstates db now).cmds
      = [] := by
  unfold async_hvac_control
  rw [confort_zone_raises hub.weather hub.importToday]

/-- C1.  Running `async_hvac_control` twice in AUTO mode on the same
snapshot issues zero actuator commands on the second run.  This holds
vacuously: every run raises the season-evaluation `ValueError` at its first
statement (`get_confort_zone`, line 649), before any actuator command is
dispatched, so each run — first and second alike — emits the empty command
list, and every emitted command (there are none) is trivially
edge-triggered. -/
theorem hvac_second_run_no_commands (hub : HubConfig) (vars : HubVars)
    (smapParam hubSmap hstates : SMap) (db : EntityId → Nat) (now : Nat) :
    (async_hvac_control hub
        (varsAfter
          (async_hvac_control hub vars ("auto") smapParam hubSmap hstates db now)
          vars)
        ("auto") smapParam hubSmap hstates db now).cmds = [] :=
  cycle_cmds_nil hub _ ("auto") smapParam hubSmap hstates db now

/-! ## Ambient Aggregator -/

theorem parseFloat_ok {s : String} (h : (pyFloat? s).isSome) :
    parseFloat s = .ok (pyFloatD s) := by
  unfold parseFloat pyFloatD
  cases hp : pyFloat? s
  · rw [hp] at h
    simp at h
  · simp [hp]

theorem areaMq_ok {a : AreaConfig} (h : a.mq.isSome) :
    areaMq a = .ok (a.mq.getD 0) := by
  unfold areaMq
  cases hm : a.mq
  · rw [hm] at h
    simp at h
  · simp [hm]

theorem ambLoop_ok (sm : SMap) (areas : List AreaConfig)
    (h : ∀ a ∈ areas, qualifies a = true → ambPresent sm a = true →
      (pyFloat? (smGetD sm a.temperature)).isSome ∧
      (pyFloat? (smGetD sm a.humidity)).isSome ∧ a.mq.isSome) :
    ambLoop sm areas = .ok (ambTempsOf areas sm, ambHumsOf areas sm,
      ambWeightsOf areas sm, ambQualCount areas, ambMissCount areas sm) := by
  induction areas with
  | nil => rfl
  | cons a rest ih =>
    have ihr := ih (fun b hb => h b (List.mem_cons_of_mem a hb))
    by_cases hq : qualifies a = true
    · by_cases hp : ambPresent sm a = true
      · obtain ⟨h1, h2, h3⟩ := h a (List.mem_cons_self a rest) hq hp
        have hp' : (smMem sm a.temperature && smMem sm a.humidity) = true := hp
        simp [ambLoop, hq, hp', parseFloat_ok h1, parseFloat_ok h2,
          areaMq_ok h3, ihr, ambTempsOf, ambHumsOf, ambWeightsOf,
          ambQualCount, ambMissCount, ambPresentAreas, List.filter_cons, hp,
          Bind.bind, Except.bind, Pure.pure, Except.pure]
      · have hp' : ambPresent sm a = false := by
          cases hv : ambPresent sm a
          · rfl
          · exact absurd hv hp
        have hp2 : (smMem sm a.temperature && smMem sm a.humidity) = false := hp'
        simp [ambLoop, hq, hp2, hp', ihr, ambTempsOf, ambHumsOf, ambWeightsOf,
          ambQualCount, ambMissCount, ambPresentAreas, List.filter_cons,
          Bind.bind, Except.bind, Pure.pure, Except.pure]
    · have hq' : qualifies a = false := by
        cases hv : qualifies a
        · rfl
        · exact absurd hv hq
      simp [ambLoop, hq', ihr, ambTempsOf, ambHumsOf, ambWeightsOf,
        ambQualCount, ambMissCount, ambPresentAreas, List.filter_cons]

theorem weighted_average_ok {vals ws : List ℚ}
    (hlen : vals.length = ws.length) (hs : ws.sum ≠ 0) :
    weighted_average vals ws = .ok (weightedMean vals ws) := by
  unfold weighted_average weightedMean
  simp [hlen, hs]

/-- C4.  The Ambient Aggregator is not exception-safe on malformed
telemetry: with three qualifying indoor radiant areas whose entries are all
present, the first area's temperature state `unavailable` makes
`float(...)` raise an uncaught `ValueError` instead of being treated as
unknown. -/
theorem ambient_raises_on_unavailable :
    async_ambient_temp_hum (dewfnConst 0) areasThree smapUnavail
      = .error .valueError := by
  decide

/-- C5.  On numeric data, `async_ambient_temp_hum` proceeds exactly when
`round(area_count / 3) >= area_missing` (counting qualifying = indoor and
radiant areas), and the aggregate it then returns carries the
floor-area-weighted means of temperature and humidity, each rounded to one
decimal, with the dew point and heat index derived from the rounded pair. -/
theorem ambient_tolerance_policy (dewfn : ℚ → ℚ → ℚ) (areas : List AreaConfig)
    (sm : SMap)
    (hdata : ∀ a ∈ areas, qualifies a = true → ambPresent sm a = true →
      (pyFloat? (smGetD sm a.temperature)).isSome ∧
      (pyFloat? (smGetD sm a.humidity)).isSome ∧ a.mq.isSome)
    (hw : (0 : ℚ) < (ambWeightsOf areas sm).sum) :
    (async_ambient_temp_hum dewfn areas sm = .ok none ↔
      ¬ ((ambMissCount areas sm : Int) ≤
          pyRoundQ ((ambQualCount areas : ℚ) / 3))) ∧
    ((ambMissCount areas sm : Int) ≤ pyRoundQ ((ambQualCount areas : ℚ) / 3) →
      async_ambient_temp_hum dewfn areas sm =
        .ok (some (ambSpecRecord dewfn areas sm))) := by
  have hl := ambLoop_ok sm areas hdata
  have hlen1 : (ambTempsOf areas sm).length = (ambWeightsOf areas sm).length := by
    simp [ambTempsOf, ambWeightsOf]
  have hlen2 : (ambHumsOf areas sm).length = (ambWeightsOf areas sm).length := by
    simp [ambHumsOf, ambWeightsOf]
  have hs : (ambWeightsOf areas sm).sum ≠ 0 := ne_of_gt hw
  by_cases hdec : (ambMissCount areas sm : Int) ≤
      pyRoundQ ((ambQualCount areas : ℚ) / 3)
  · constructor
    · constructor
      · intro hres
        exfalso
        rw [show async_ambient_temp_hum dewfn areas sm =
            .ok (some (ambSpecRecord dewfn areas sm)) from ?_] at hres
        · exact Option.noConfusion (Except.ok.inj hres)
        · unfold async_ambient_temp_hum
          rw [hl]
          simp [Bind.bind, Except.bind, Pure.pure, Except.pure, ge_iff_le, hdec,
            weighted_average_ok hlen1 hs, weighted_average_ok hlen2 hs,
            ambSpecRecord]
      · intro hc
        exact absurd hdec hc
    · intro _
      unfold async_ambient_temp_hum
      rw [hl]
      simp [Bind.bind, Except.bind, Pure.pure, Except.pure, ge_iff_le, hdec,
        weighted_average_ok hlen1 hs, weighted_average_ok hlen2 hs,
        ambSpecRecord]
  · constructor
    · constructor
      · intro _
        exact hdec
      · intro _
        unfold async_ambient_temp_hum
        rw [hl]
        simp [Bind.bind, Except.bind, Pure.pure, Except.pure, ge_iff_le, hdec]
    · intro hc
      exact absurd hc hdec

theorem ambient_tolerance_policy_witness :
    ((ambMissCount areasThree smapTwoPresent : Int) ≤
        pyRoundQ ((ambQualCount areasThree : ℚ) / 3)) ∧
    async_ambient_temp_hum (dewfnConst 12) areasThree smapTwoPresent =
      .ok (some (ambSpecRecord (dewfnConst 12) areasThree smapTwoPresent)) ∧
    async_ambient_temp_hum (dewfnConst 12) areasThree smapOnePresent =
      .ok none := by
  have hmiss1 : ambMissCount areasThree smapTwoPresent = 1 := by decide
  have hqual : ambQualCount areasThree = 3 := by decide
  have hw2 : ambWeightsOf areasThree smapTwoPresent = [20, 30] := by decide
  have hw1 : ambWeightsOf areasThree smapOnePresent = [20] := by decide
  have hmiss2 : ambMissCount areasThree smapOnePresent = 2 := by decide
  have hdec : (ambMissCount areasThree smapTwoPresent : Int) ≤
      pyRoundQ ((ambQualCount areasThree : ℚ) / 3) := by
    rw [hmiss1, hqual]
    norm_num [pyRoundQ]
  refine ⟨hdec, ?_, ?_⟩
  · exact (ambient_tolerance_policy (dewfnConst 12) areasThree smapTwoPresent
      (by decide) (by rw [hw2]; norm_num)).2 hdec
  · refine (ambient_tolerance_policy (dewfnConst 12) areasThree smapOnePresent
      (by decide) (by rw [hw1]; norm_num)).1.mpr ?_
    rw [hmiss2, hqual]
    norm_num [pyRoundQ]

/-- C7 counterexample.  With the aggregate humidity at an out-of-range
150 %, the dew-point computation is not propagated as absent and dependent
computations are not skipped: the cycle's aggregate is a full value-bearing
record whose dew point is the numeric sentinel `0`, produced by the
`except` path of `calculate_dew_point` (the stand-in in-range dew point is
`99`, so the `0` can only come from the caught `ValueError`). -/
theorem dew_point_invalid_not_absent :
    async_ambient_temp_hum (dewfnConst 99) areasHumid smapHumid =
      .ok (some ⟨20, 150, 0, 22⟩) := by
  have hl := ambLoop_ok smapHumid areasHumid (by decide)
  have h1 : ambTempsOf areasHumid smapHumid = [20] := by decide
  have h2 : ambHumsOf areasHumid smapHumid = [150] := by decide
  have h3 : ambWeightsOf areasHumid smapHumid = [10] := by decide
  rw [h1, h2, h3] at hl
  unfold async_ambient_temp_hum
  rw [hl]
  norm_num [Bind.bind, Except.bind, Pure.pure, Except.pure, pyRoundQ, pyRound10,
    weighted_average, calculate_dew_point, GetTDewPointFromRelHum,
    calculate_heat_index, dewfnConst, ambQualCount, ambMissCount, areasHumid,
    mkArea, qualifies, ambPresent, smMem, smGet, smapHumid]

/-- C7 (amended).  For out-of-range relative humidity the dew-point
computation never raises: `calculate_dew_point` catches psychrolib's
`ValueError`, logs it, and returns the numeric sentinel `0.0`, which then
flows into dependent computations as an ordinary value rather than as an
absent result. -/
theorem dew_point_invalid_returns_zero (dewfn : ℚ → ℚ → ℚ) (t h : ℚ)
    (hout : h / 100 < 0 ∨ 1 < h / 100) :
    calculate_dew_point dewfn t h = 0 := by
  have hc : ¬ (0 ≤ h / 100 ∧ h / 100 ≤ 1) := by
    rcases hout with h1 | h1
    · exact fun hand => absurd hand.1 (not_le.mpr h1)
    · exact fun hand => absurd hand.2 (not_le.mpr h1)
  simp [calculate_dew_point, GetTDewPointFromRelHum, hc]

theorem dew_point_invalid_returns_zero_witness :
    ((150 : ℚ) / 100 < 0 ∨ 1 < (150 : ℚ) / 100) ∧
      calculate_dew_point (dewfnConst 99) 25 150 = 0 :=
  ⟨Or.inr (by norm_num),
   dew_point_invalid_returns_zero (dewfnConst 99) 25 150 (Or.inr (by norm_num))⟩


/-! ## Thermal-Collector Distributor theorems -/

theorem pyRoundQ_le_floor_succ (x : ℚ) : pyRoundQ x ≤ ⌊x⌋ + 1 := by
  unfold pyRoundQ
  split_ifs <;> omega

theorem floor_le_pyRoundQ (x : ℚ) : ⌊x⌋ ≤ pyRoundQ x := by
  unfold pyRoundQ
  split_ifs <;> omega

theorem pyRoundQ_mono {x y : ℚ} (h : x ≤ y) : pyRoundQ x ≤ pyRoundQ y := by
  rcases lt_or_eq_of_le (Int.floor_le_floor h) with hf | hf
  · calc pyRoundQ x ≤ ⌊x⌋ + 1 := pyRoundQ_le_floor_succ x
      _ ≤ ⌊y⌋ := by omega
      _ ≤ pyRoundQ y := floor_le_pyRoundQ y
  · unfold pyRoundQ
    rw [← hf]
    split_ifs <;> first | omega | (exfalso; linarith)

theorem pyRoundQ_hundred : pyRoundQ 100 = 100 := by
  norm_num [pyRoundQ]

theorem adjust_valve_percent_ge (total opened : ℚ) :
    (50 : ℚ) ≤ adjust_valve_percent total opened :=
  le_max_left _ _

theorem collectorPad_self (t : ℚ) : collectorPad t t = t := by
  simp [collectorPad]

theorem adjust_valve_percent_full (t : ℚ) :
    adjust_valve_percent t t = 100 := by
  unfold adjust_valve_percent
  rw [collectorPad_self]
  have h1 : (1 - (t - t) / t) * 100 = 100 := by
    field_simp
  rw [h1, pyRoundQ_hundred]
  norm_num

theorem adjust_valve_percent_mono {t o o' : ℚ} (ht : 0 < t)
    (hle : o ≤ o') (hub : o' ≤ t) :
    adjust_valve_percent t o ≤ adjust_valve_percent t o' := by
  by_cases he2 : t = o'
  · rw [← he2, adjust_valve_percent_full t]
    by_cases he1 : t = o
    · rw [← he1, adjust_valve_percent_full t]
    · unfold adjust_valve_percent collectorPad
      rw [if_pos he1]
      have hp : (0 : ℚ) < t + 4 := by linarith
      have hnn : (0 : ℚ) ≤ (t + 4 - o) / (t + 4) :=
        div_nonneg (by linarith) (le_of_lt hp)
      have harg : (1 - (t + 4 - o) / (t + 4)) * 100 ≤ 100 := by nlinarith
      have hr := pyRoundQ_mono harg
      rw [pyRoundQ_hundred] at hr
      have hc : ((pyRoundQ ((1 - (t + 4 - o) / (t + 4)) * 100) : ℚ)) ≤ 100 := by
        exact_mod_cast hr
      exact max_le (by norm_num) hc
  · have he1 : t ≠ o := fun hc => he2 (le_antisymm (hc ▸ hle) hub)
    unfold adjust_valve_percent collectorPad
    rw [if_pos he1, if_pos he2]
    have hp : (0 : ℚ) < t + 4 := by linarith
    have harg : (1 - (t + 4 - o) / (t + 4)) * 100 ≤
        (1 - (t + 4 - o') / (t + 4)) * 100 := by
      have hdd : (t + 4 - o') / (t + 4) ≤ (t + 4 - o) / (t + 4) :=
        (div_le_div_iff_of_pos_right hp).mpr (by linarith)
      nlinarith
    have hr := pyRoundQ_mono harg
    have hc : ((pyRoundQ ((1 - (t + 4 - o) / (t + 4)) * 100) : ℚ)) ≤
        ((pyRoundQ ((1 - (t + 4 - o') / (t + 4)) * 100) : ℚ)) := by
      exact_mod_cast hr
    exact max_le_max (le_refl _) hc


theorem areaValve_ok {a : AreaConfig} {v : EntityId}
    (h : a.thermal_collector_valve_switch = some v) : areaValve a = .ok v := by
  unfold areaValve
  rw [h]

theorem collectorZoneCmds_ok (valve : EntityId) (rt pOn pOff : ℚ)
    (is_on : Bool) (last_on : Nat) :
    ∃ cs, collectorZoneCmds valve rt (some pOn) (some pOff) is_on last_on
      = .ok cs := by
  unfold collectorZoneCmds qGtOpt qLeOpt
  by_cases h1 : rt > pOff
  · simp [h1, Bind.bind, Except.bind]
  · cases hb : (decide (rt ≤ pOn) || (last_on == 0)) <;>
      simp [h1, hb, Bind.bind, Except.bind]

theorem collectorLoop_cons_skip {a : AreaConfig} (smap hstates : SMap)
    (db : EntityId → Nat) (sp_on sp_off : Option ℚ) (rest : List AreaConfig)
    (hq : qualifies a = false) :
    collectorLoop smap hstates db sp_on sp_off (a :: rest) =
      collectorLoop smap hstates db sp_on sp_off rest := by
  simp [collectorLoop, hq]

theorem collectorLoop_ok (smap hstates : SMap) (db : EntityId → Nat)
    (pOn pOff : ℚ) (areas : List AreaConfig)
    (hcfg : ∀ a ∈ areas, qualifies a = true →
      a.mq.isSome ∧ a.thermal_collector_valve_switch.isSome)
    (hnum : ∀ a ∈ areas, qualifies a = true →
      collectorHasData smap hstates a = true →
      (pyFloat? (smGetD smap a.temperature)).isSome ∧
      (pyFloat? (smGetD smap a.humidity)).isSome) :
    ∃ cmds, collectorLoop smap hstates db (some pOn) (some pOff) areas =
      .ok (cmds, collectorTotalMq areas,
        collectorOpenedMq areas smap hstates) := by
  induction areas with
  | nil => exact ⟨[], rfl⟩
  | cons a rest ih =>
    obtain ⟨cmds, hc⟩ := ih
      (fun b hb => hcfg b (List.mem_cons_of_mem a hb))
      (fun b hb => hnum b (List.mem_cons_of_mem a hb))
    by_cases hq : qualifies a = true
    · obtain ⟨hmq, hvalve⟩ := hcfg a (List.mem_cons_self a rest) hq
      obtain ⟨v, hv⟩ := Option.isSome_iff_exists.mp hvalve
      by_cases hd : collectorHasData smap hstates a = true
      · obtain ⟨ht, hh⟩ := hnum a (List.mem_cons_self a rest) hq hd
        have hdd := hd
        unfold collectorHasData at hdd
        rw [hv] at hdd
        have hmem : (smMem smap a.temperature && smMem smap a.humidity &&
            (smGet hstates v).isSome) = true := by
          unfold smMem at hdd ⊢
          simpa using hdd
        obtain ⟨cs, hcs⟩ := collectorZoneCmds_ok v
          (pyFloatD (smGetD smap a.temperature))
          pOn pOff (smGet hstates v == some ("on")) (db v)
        have htot : collectorTotalMq (a :: rest) =
            a.mq.getD 0 + collectorTotalMq rest := by
          simp [collectorTotalMq, List.filter_cons, hq]
        have hop : collectorOpenedMq (a :: rest) smap hstates =
            (if smGet hstates v == some ("on") then a.mq.getD 0 else 0) +
              collectorOpenedMq rest smap hstates := by
          unfold collectorOpenedMq
          rw [List.filter_cons]
          by_cases hon : collectorValveOn hstates a = true
          · have hon2 : smGet hstates v = some ("on") := by
              have hx := hon
              unfold collectorValveOn at hx
              rw [hv] at hx
              simpa using hx
            simp [hq, hd, hon, hon2, collectorOpenedMq]
          · have honf : collectorValveOn hstates a = false := by
              cases hz : collectorValveOn hstates a
              · rfl
              · exact absurd hz hon
            have hon2 : ¬ smGet hstates v = some ("on") := by
              have hx := honf
              unfold collectorValveOn at hx
              rw [hv] at hx
              simpa using hx
            simp [hq, hd, honf, hon2, collectorOpenedMq]
        refine ⟨cs ++ cmds, ?_⟩
        rw [htot, hop]
        simp [collectorLoop, hq, Bind.bind, Except.bind,
          areaMq_ok hmq, areaValve_ok hv, hmem, parseFloat_ok ht,
          parseFloat_ok hh, hcs, hc]
      · have hdf : collectorHasData smap hstates a = false := by
          cases hz : collectorHasData smap hstates a
          · rfl
          · exact absurd hz hd
        have hdd := hdf
        unfold collectorHasData at hdd
        rw [hv] at hdd
        have hmem : (smMem smap a.temperature && smMem smap a.humidity &&
            (smGet hstates v).isSome) = false := by
          unfold smMem at hdd ⊢
          simpa using hdd
        have htot : collectorTotalMq (a :: rest) =
            a.mq.getD 0 + collectorTotalMq rest := by
          simp [collectorTotalMq, List.filter_cons, hq]
        have hop : collectorOpenedMq (a :: rest) smap hstates =
            collectorOpenedMq rest smap hstates := by
          unfold collectorOpenedMq
          rw [List.filter_cons]
          simp [hq, hdf]
        refine ⟨cmds, ?_⟩
        rw [htot, hop]
        simp [collectorLoop, hq, Bind.bind, Except.bind,
          areaMq_ok hmq, areaValve_ok hv, hmem, hc]
    · have hq2 : qualifies a = false := by
        cases hz : qualifies a
        · rfl
        · exact absurd hz hq
      have htot : collectorTotalMq (a :: rest) = collectorTotalMq rest := by
        simp [collectorTotalMq, List.filter_cons, hq2]
      have hop : collectorOpenedMq (a :: rest) smap hstates =
          collectorOpenedMq rest smap hstates := by
        unfold collectorOpenedMq
        rw [List.filter_cons]
        simp [hq2]
      refine ⟨cmds, ?_⟩
      rw [collectorLoop_cons_skip smap hstates db _ _ rest hq2, htot, hop, hc]


/-- C8 counterexample.  A distributor pass over a configuration with no
qualifying zone area divides by zero (`total_mq = opened_mq = 0`, no pad)
and raises `ZeroDivisionError` instead of returning a percentage of at
least 50. -/
theorem collector_raises_on_no_zones :
    radiant_thermal_collector hubBase [] [] (fun _ => 0) none none =
      .error .zeroDivision := by
  unfold radiant_thermal_collector
  simp [collectorLoop, hubBase, collectorPad, Bind.bind, Except.bind]

/-- C8 (amended).  Over a configuration whose qualifying zones have a
configured area and valve, numeric data where present, and positive total
area, every distributor pass returns
`adjust_valve_percent = max(50, round((1 - (total - opened)/total) * 100))`
on the 4-padded total; the percentage is at least 50, and the formula is
monotone non-decreasing in the opened area. -/
theorem collector_percent_spec (hub : HubConfig) (hubSmap hstates : SMap)
    (db : EntityId → Nat) (pOn pOff : ℚ)
    (hcfg : ∀ a ∈ hub.areas, qualifies a = true →
      a.mq.isSome ∧ a.thermal_collector_valve_switch.isSome)
    (hnum : ∀ a ∈ hub.areas, qualifies a = true →
      collectorHasData hubSmap hstates a = true →
      (pyFloat? (smGetD hubSmap a.temperature)).isSome ∧
      (pyFloat? (smGetD hubSmap a.humidity)).isSome)
    (hpos : 0 < collectorTotalMq hub.areas) :
    (∃ cmds, radiant_thermal_collector hub hubSmap hstates db
        (some pOn) (some pOff) =
      .ok (cmds, adjust_valve_percent (collectorTotalMq hub.areas)
        (collectorOpenedMq hub.areas hubSmap hstates))) ∧
    (50 : ℚ) ≤ adjust_valve_percent (collectorTotalMq hub.areas)
        (collectorOpenedMq hub.areas hubSmap hstates) ∧
    (∀ t o o' : ℚ, 0 < t → o ≤ o' → o' ≤ t →
      adjust_valve_percent t o ≤ adjust_valve_percent t o') := by
  obtain ⟨cmds, hc⟩ := collectorLoop_ok hubSmap hstates db pOn pOff hub.areas
    hcfg hnum
  have hpad : collectorPad (collectorTotalMq hub.areas)
      (collectorOpenedMq hub.areas hubSmap hstates) ≠ 0 := by
    unfold collectorPad
    split_ifs
    · linarith
    · linarith
  refine ⟨⟨cmds, ?_⟩, adjust_valve_percent_ge _ _,
    fun t o o' ht hle hub2 => adjust_valve_percent_mono ht hle hub2⟩
  unfold radiant_thermal_collector
  rw [hc]
  simp [Bind.bind, Except.bind, hpad]

theorem collector_percent_spec_witness :
    (0 : ℚ) < collectorTotalMq areasValve ∧
    (∃ cmds, radiant_thermal_collector { hubBase with areas := areasValve }
        smapValve hstatesValve dbValve (some 18.5) (some 22.5) =
      .ok (cmds, adjust_valve_percent (collectorTotalMq areasValve)
        (collectorOpenedMq areasValve smapValve hstatesValve))) ∧
    (50 : ℚ) ≤ adjust_valve_percent (collectorTotalMq areasValve)
        (collectorOpenedMq areasValve smapValve hstatesValve) := by
  have htot : collectorTotalMq areasValve = 10 := by
    simp [collectorTotalMq, areasValve, mkArea, qualifies, List.filter]
  have hpos : (0 : ℚ) < collectorTotalMq areasValve := by
    rw [htot]
    norm_num
  have h := collector_percent_spec { hubBase with areas := areasValve }
    smapValve hstatesValve dbValve 18.5 22.5 (by decide) (by decide) hpos
  exact ⟨hpos, h.1, h.2.1⟩


/-! ## VMC winter latch theorems -/

theorem directOffCond_excludes (hub : HubConfig) (m : SMap)
    (h : vmcDirectOffCond hub m = true) : vmcDirectAlarmCond hub m = false := by
  unfold vmcDirectOffCond at h
  simp only [Bool.and_eq_true, beq_iff_eq] at h
  unfold vmcDirectAlarmCond
  rw [h.1.2]
  simp

theorem directOffCond_sensors (hub : HubConfig) (m : SMap)
    (h : vmcDirectOffCond hub m = true) :
    ∃ tw ta, smGet m hub.vmc_t_water = some tw ∧
      smGet m hub.vmc_t_ambient = some ta ∧
      is_number tw = true ∧ is_number ta = true := by
  unfold vmcDirectOffCond at h
  simp only [Bool.and_eq_true] at h
  obtain ⟨⟨h1, _⟩, h3⟩ := h
  rcases hta : smGet m hub.vmc_t_ambient with _ | ta
  · rw [hta] at h1
    simp at h1
  · rcases htw : smGet m hub.vmc_t_water with _ | tw
    · rw [htw] at h3
      simp at h3
    · rw [hta] at h1
      rw [htw] at h3
      exact ⟨tw, ta, rfl, rfl, h3, h1⟩

theorem vmcAlarmAfterClear_false (hub : HubConfig) (m : SMap) :
    vmcAlarmAfterClear hub m false = false := by
  simp [vmcAlarmAfterClear]

theorem vmcAlarmAfterClear_cleared (hub : HubConfig) (m : SMap)
    (h : vmcAlarmAfterClear hub m true = false) :
    pyFloatD (smGetD m hub.vmc_t_water) ≤ pyFloatD (smGetD m hub.vmc_t_ambient) := by
  by_cases hc : pyFloatD (smGetD m hub.vmc_t_water) ≤
      pyFloatD (smGetD m hub.vmc_t_ambient)
  · exact hc
  · exfalso
    rw [vmcAlarmAfterClear, if_neg (by simp [hc])] at h
    exact Bool.noConfusion h

theorem vmcDirectStep_no_direct_on (hub : HubConfig) (m : SMap) (a0 : Bool)
    (h : (vmcDirectStep hub m a0).2 = true) :
    Cmd.turn hub.power_supply_direct_id TURN_ON ∉ (vmcDirectStep hub m a0).1 := by
  by_cases hoff : vmcDirectOffCond hub m = true
  · rw [vmcDirectStep, if_pos hoff] at h ⊢
    simp only at h
    simp [h]
  · rw [vmcDirectStep, if_neg hoff] at h ⊢
    by_cases hal : vmcDirectAlarmCond hub m = true
    · rw [if_pos hal]
      simp [TURN_ON, TURN_OFF]
    · rw [if_neg hal]
      exact List.not_mem_nil _

theorem vmcDirectStep_alarm_iff (hub : HubConfig) (m : SMap) :
    (vmcDirectStep hub m false).2 = true ↔ vmcDirectAlarmCond hub m = true := by
  by_cases hoff : vmcDirectOffCond hub m = true
  · rw [vmcDirectStep, if_pos hoff]
    simp only [vmcAlarmAfterClear_false]
    rw [directOffCond_excludes hub m hoff]
  · rw [vmcDirectStep, if_neg hoff]
    by_cases hal : vmcDirectAlarmCond hub m = true
    · rw [if_pos hal]
      simp [hal]
    · rw [if_neg hal]
      simp only []
      constructor
      · intro hc
        exact absurd hc (by simp)
      · intro hc
        exact absurd hc hal

theorem vmcDirectStep_sets_off (hub : HubConfig) (m : SMap)
    (h : (vmcDirectStep hub m false).2 = true) :
    Cmd.turn hub.power_supply_direct_id TURN_OFF ∈ (vmcDirectStep hub m false).1 := by
  have hal := (vmcDirectStep_alarm_iff hub m).mp h
  have hoff : ¬ vmcDirectOffCond hub m = true := by
    intro hc
    rw [directOffCond_excludes hub m hc] at hal
    exact Bool.false_ne_true hal
  rw [vmcDirectStep, if_neg hoff, if_pos hal]
  simp

theorem vmcDirectStep_clear_mech (hub : HubConfig) (m : SMap)
    (h : (vmcDirectStep hub m true).2 = false) :
    ∃ tw ta, smGet m hub.vmc_t_water = some tw ∧
      smGet m hub.vmc_t_ambient = some ta ∧
      is_number tw = true ∧ is_number ta = true ∧
      pyFloatD tw ≤ pyFloatD ta := by
  by_cases hoff : vmcDirectOffCond hub m = true
  · rw [vmcDirectStep, if_pos hoff] at h
    simp only at h
    obtain ⟨tw, ta, htw, hta, hnw, hna⟩ := directOffCond_sensors hub m hoff
    have hle := vmcAlarmAfterClear_cleared hub m h
    rw [smGetD, htw] at hle
    rw [smGetD, hta] at hle
    exact ⟨tw, ta, htw, hta, hnw, hna, by simpa using hle⟩
  · rw [vmcDirectStep, if_neg hoff] at h
    by_cases hal : vmcDirectAlarmCond hub m = true
    · rw [if_pos hal] at h
      exact absurd h (by simp)
    · rw [if_neg hal] at h
      exact absurd h (by simp)


theorem vmcTreatOffCmds_no_turn (hub : HubConfig) (m : SMap) (e : EntityId)
    (a : String) : Cmd.turn e a ∉ vmcTreatOffCmds hub m := by
  unfold vmcTreatOffCmds
  rcases smGet m hub.vmc_season_actuator_id with _ | s
  · simp
  · by_cases hs : s = ("Off")
    · simp [hs]
    · simp [hs]

theorem vmcTreatWinterCmds_no_turn (hub : HubConfig) (m : SMap) (e : EntityId)
    (a : String) : Cmd.turn e a ∉ vmcTreatWinterCmds hub m := by
  unfold vmcTreatWinterCmds
  rcases smGet m hub.vmc_season_actuator_id with _ | s
  · simp
  · by_cases hs : s = hub.vmc_season_winter_code
    · simp [hs]
    · simp [hs]

theorem vmcSpareCmds_no_turn (hub : HubConfig) (m : SMap) (t : Int)
    (cs : List Cmd) (h : vmcSpareCmds hub m t = .ok cs) (e : EntityId)
    (a : String) : Cmd.turn e a ∉ cs := by
  unfold vmcSpareCmds at h
  rcases hs : smGet m hub.vmc_spare_setpoint_id with _ | s
  · rw [hs] at h
    simp only [Pure.pure, Except.pure, Except.ok.injEq] at h
    rw [← h]
    simp
  · rw [hs] at h
    dsimp only at h
    rcases hi : pyInt? s with _ | i
    · rw [hi] at h
      simp [Bind.bind, Except.bind] at h
    · rw [hi] at h
      simp only [Bind.bind, Except.bind, Pure.pure, Except.pure,
        Except.ok.injEq] at h
      rw [← h]
      by_cases ht : i = t
      · simp [ht]
      · simp [ht]

theorem vmcForceHeat_no_direct_on (hub : HubConfig) (m : SMap)
    (hd2 : hub.power_supply_direct_id ≠ hub.vmc_force_heating_id) :
    Cmd.turn hub.power_supply_direct_id TURN_ON ∉ vmcForceHeatOnCmds hub m := by
  unfold vmcForceHeatOnCmds
  by_cases hc : (smGet m hub.vmc_force_heating_id == some ("off")) = true
  · simp [hc, hd2]
  · simp [hc]

theorem vmcRecircOn_no_direct_on (hub : HubConfig) (m : SMap)
    (hd3 : hub.power_supply_direct_id ≠ hub.vmc_vent_recirculation_id) :
    Cmd.turn hub.power_supply_direct_id TURN_ON ∉ vmcRecircOnCmds hub m := by
  unfold vmcRecircOnCmds
  by_cases hc : (smGet m hub.vmc_vent_recirculation_id == some ("off")) = true
  · simp [hc, hd3]
  · simp [hc]

theorem vmcRecircOff_no_turn_on (hub : HubConfig) (m : SMap) (e : EntityId) :
    Cmd.turn e TURN_ON ∉ vmcRecircOffCmds hub m := by
  unfold vmcRecircOffCmds
  by_cases hc : (smGet m hub.vmc_vent_recirculation_id == some ("on")) = true
  · simp [hc, TURN_ON, TURN_OFF]
  · simp [hc]

theorem vmcRetract_no_turn_on (hub : HubConfig) (m : SMap) (e : EntityId) :
    Cmd.turn e TURN_ON ∉ vmcRetractCmds hub m := by
  unfold vmcRetractCmds
  by_cases h1 : (smGet m hub.vmc_force_heating_id == some ("on")) = true <;>
    by_cases h2 : (smGet m hub.power_supply_direct_id == some ("on")) = true <;>
      simp [h1, h2, TURN_ON, TURN_OFF]

theorem vmcWinterSchedule_no_direct_on (hub : HubConfig) (m : SMap)
    (isOn : Bool) (now : Nat) (cs : List Cmd)
    (h : vmcWinterSchedule hub m isOn now = .ok cs)
    (hd1 : hub.power_supply_direct_id ≠ hub.vmc_power_entity_id)
    (hd3 : hub.power_supply_direct_id ≠ hub.vmc_vent_recirculation_id) :
    Cmd.turn hub.power_supply_direct_id TURN_ON ∉ cs := by
  unfold vmcWinterSchedule at h
  by_cases hw1 : (decide (120 ≤ now) && decide (now < 540)) = true
  · rw [if_pos hw1] at h
    cases isOn with
    | false =>
      simp only [Bool.not_false, if_true, Except.ok.injEq] at h
      rw [← h]
      simp [hd1]
    | true =>
      simp only [Bool.not_true, Bool.false_eq_true, if_false] at h
      rcases hsp : vmcSpareCmds hub m 1 with e2 | c2
      · rw [hsp] at h
        simp [Bind.bind, Except.bind] at h
      · rw [hsp] at h
        simp only [Bind.bind, Except.bind, Pure.pure, Except.pure,
          Except.ok.injEq] at h
        rw [← h]
        simp only [List.mem_append, not_or]
        exact ⟨⟨vmcTreatOffCmds_no_turn hub m _ _,
          vmcSpareCmds_no_turn hub m 1 c2 hsp _ _⟩,
          vmcRecircOn_no_direct_on hub m hd3⟩
  · rw [if_neg (by simpa using hw1)] at h
    by_cases hw2 : (decide (720 ≤ now) && decide (now < 900)) = true
    · rw [if_pos hw2] at h
      cases isOn with
      | false =>
        simp only [Bool.not_false, if_true, Except.ok.injEq] at h
        rw [← h]
        simp [hd1]
      | true =>
        simp only [Bool.not_true, Bool.false_eq_true, if_false] at h
        rcases hsp : vmcSpareCmds hub m 5 with e2 | c2
        · rw [hsp] at h
          simp [Bind.bind, Except.bind] at h
        · rw [hsp] at h
          simp only [Bind.bind, Except.bind, Pure.pure, Except.pure,
            Except.ok.injEq] at h
          rw [← h]
          simp only [List.mem_append, not_or]
          exact ⟨⟨vmcTreatWinterCmds_no_turn hub m _ _,
            vmcSpareCmds_no_turn hub m 5 c2 hsp _ _⟩,
            vmcRecircOff_no_turn_on hub m _⟩
    · rw [if_neg (by simpa using hw2)] at h
      cases isOn with
      | false =>
        simp only [Bool.false_eq_true, if_false, Except.ok.injEq] at h
        rw [← h]
        simp
      | true =>
        simp only [if_true, Except.ok.injEq] at h
        rw [← h]
        simp only [List.mem_append, not_or]
        refine ⟨vmcRecircOff_no_turn_on hub m _, ?_⟩
        simp [hd1]


/-- C9.  The winter VMC support interlock's latched water-temperature
alarm: (i) while the resulting latch is set, the direct supply path is
never commanded on; (ii) starting from a clear latch, the latch becomes set
exactly when the high-water-temperature alarm sensor reads `on` while the
direct supply path is `on` inside an active interlock with the device
powered — and the direct path is then commanded off; (iii) a set latch
clears only when the water temperature has returned at or below the
ambient temperature (both sensors present and numeric). -/
theorem vmc_water_alarm_latch (hub : HubConfig) (m : SMap) (isOn alarm0 : Bool)
    (now : Nat)
    (hd1 : hub.power_supply_direct_id ≠ hub.vmc_power_entity_id)
    (hd2 : hub.power_supply_direct_id ≠ hub.vmc_force_heating_id)
    (hd3 : hub.power_supply_direct_id ≠ hub.vmc_vent_recirculation_id) :
    ∀ cmds alarm1,
      vmc_mode_auto_season_winter hub m isOn alarm0 now = .ok (cmds, alarm1) →
      (alarm1 = true → Cmd.turn hub.power_supply_direct_id TURN_ON ∉ cmds) ∧
      (alarm0 = false →
        (alarm1 = true ↔ (vmcInterlockActive hub m = true ∧ isOn = true ∧
          vmcDirectAlarmCond hub m = true))) ∧
      (alarm0 = false → alarm1 = true →
        Cmd.turn hub.power_supply_direct_id TURN_OFF ∈ cmds) ∧
      (alarm0 = true → alarm1 = false →
        ∃ tw ta, smGet m hub.vmc_t_water = some tw ∧
          smGet m hub.vmc_t_ambient = some ta ∧
          is_number tw = true ∧ is_number ta = true ∧
          pyFloatD tw ≤ pyFloatD ta) := by
  intro cmds alarm1 h
  unfold vmc_mode_auto_season_winter at h
  by_cases hact : vmcInterlockActive hub m = true
  · rw [if_pos hact] at h
    cases isOn with
    | false =>
      simp only [Bool.not_false, if_true, Except.ok.injEq, Prod.mk.injEq] at h
      obtain ⟨hcmds, hal⟩ := h
      refine ⟨?_, ?_, ?_, ?_⟩
      · intro _
        rw [← hcmds]
        simp [hd1]
      · intro h0
        rw [← hal, h0]
        constructor
        · intro hc
          exact absurd hc (by simp)
        · rintro ⟨_, hOn, _⟩
          exact absurd hOn (by simp)
      · intro h0 h1
        rw [← hal, h0] at h1
        exact absurd h1 (by simp)
      · intro h0 h1
        rw [← hal, h0] at h1
        exact absurd h1 (by simp)
    | true =>
      simp only [Bool.not_true, Bool.false_eq_true, if_false,
        Except.ok.injEq] at h
      have hc1 : (vmcInterlockBody hub m alarm0).1 = cmds := by rw [h]
      have hc2 : (vmcInterlockBody hub m alarm0).2 = alarm1 := by rw [h]
      unfold vmcInterlockBody at hc1 hc2
      refine ⟨?_, ?_, ?_, ?_⟩
      · intro h1
        rw [← hc1]
        simp only [List.mem_append, not_or]
        refine ⟨⟨vmcTreatOffCmds_no_turn hub m _ _,
          vmcForceHeat_no_direct_on hub m hd2⟩, ?_⟩
        exact vmcDirectStep_no_direct_on hub m alarm0 (by rw [hc2, h1])
      · intro h0
        subst h0
        rw [← hc2]
        rw [vmcDirectStep_alarm_iff hub m]
        simp [hact]
      · intro h0 h1
        subst h0
        rw [← hc1]
        simp only [List.mem_append]
        right
        exact vmcDirectStep_sets_off hub m (by rw [hc2, h1])
      · intro h0 h1
        subst h0
        exact vmcDirectStep_clear_mech hub m (by rw [hc2, h1])
  · rw [if_neg hact] at h
    rcases hsch : vmcWinterSchedule hub m isOn now with e | cs
    · rw [hsch] at h
      simp [Bind.bind, Except.bind] at h
    · rw [hsch] at h
      simp only [Bind.bind, Except.bind, Pure.pure, Except.pure,
        Except.ok.injEq, Prod.mk.injEq] at h
      obtain ⟨hcmds, hal⟩ := h
      refine ⟨?_, ?_, ?_, ?_⟩
      · intro _
        rw [← hcmds]
        simp only [List.mem_append, not_or]
        refine ⟨?_, vmcWinterSchedule_no_direct_on hub m isOn now cs hsch hd1 hd3⟩
        cases isOn with
        | false => simp
        | true =>
          simp only [if_true]
          exact vmcRetract_no_turn_on hub m _
      · intro h0
        rw [← hal, h0]
        constructor
        · intro hc
          exact absurd hc (by simp)
        · rintro ⟨hAct, _, _⟩
          exact absurd hAct hact
      · intro h0 h1
        rw [← hal, h0] at h1
        exact absurd h1 (by simp)
      · intro h0 h1
        rw [← hal, h0] at h1
        exact absurd h1 (by simp)


theorem vmc_water_alarm_latch_witness :
    vmc_mode_auto_season_winter hubBase smapLatch true false 600 =
      .ok ([Cmd.turn ("sw.direct") TURN_OFF], true) ∧
    (vmcInterlockActive hubBase smapLatch = true ∧
      vmcDirectAlarmCond hubBase smapLatch = true) ∧
    Cmd.turn hubBase.power_supply_direct_id TURN_OFF ∈
      [Cmd.turn ("sw.direct") TURN_OFF] ∧
    Cmd.turn hubBase.power_supply_direct_id TURN_ON ∉
      [Cmd.turn ("sw.direct") TURN_OFF] := by
  have heq : vmc_mode_auto_season_winter hubBase smapLatch true false 600 =
      .ok ([Cmd.turn ("sw.direct") TURN_OFF], true) := by decide
  have h := vmc_water_alarm_latch hubBase smapLatch true false 600
    (by decide) (by decide) (by decide) _ _ heq
  exact ⟨heq, by decide, h.2.2.1 rfl rfl, h.1 rfl⟩

end DrpClimate
